import Mathlib

/-!
Shallow embedding of `camera_self_filter/src/image_view.cpp`.

The node keeps three pieces of mutable state (class `ImageView`): the last
received message pointer `last_msg_`, the `CvBridge` holding the last
successfully converted image (`img_bridge_`), and the save counter `count_`.
`image_cb` stores the message, normalizes a Bayer encoding tag to "mono8",
asks the bridge to convert to "bgra8", and on success splits the four
channels, blends each color channel with the alpha channel via
`cvAddWeighted(. , 0.7, alpha, 0.3, 0.0, .)`, merges the three blended
planes back into the four-channel buffer in place (`cvMerge(b,g,r,NULL,img)`
leaves the fourth channel untouched) and displays it.  `mouse_cb` on a left
button down saves the bridge's current image under a counter-numbered
filename and increments the counter.

Machine integers: pixel values are 8-bit unsigned; they are modelled as
`Nat` with explicit clamping where the code saturates.  `cvAddWeighted`
computes `src1*0.7 + src2*0.3` in floating point and saturates the rounded
result into 0..255; it is modelled exactly on bytes as the nearest integer
to `(7*x + 3*y)/10` (the external library rounds to nearest; the half-up
tie-break below is one nearest rounding) clamped at 255.
-/

/-- One four-channel pixel: blue, green, red, alpha (the self-mask), as split
by `cvSplit(ipl_image, b, g, r, alpha)`. -/
structure Pixel4 where
  b : Nat
  g : Nat
  r : Nat
  a : Nat
deriving DecidableEq, Repr

/-- One three-channel pixel (the blended color planes). -/
structure Pixel3 where
  b : Nat
  g : Nat
  r : Nat
deriving DecidableEq, Repr

/-- The color channel of a four-channel pixel at slot 0, 1, 2 (= b, g, r). -/
def chan (p : Pixel4) : Fin 3 → Nat := ![p.b, p.g, p.r]

/-- The channel of a three-channel pixel at slot 0, 1, 2 (= b, g, r). -/
def chan3 (p : Pixel3) : Fin 3 → Nat := ![p.b, p.g, p.r]

/-- Build a four-channel pixel from indexed color channels and an alpha. -/
def mkPixel4 (c : Fin 3 → Nat) (a : Nat) : Pixel4 :=
  ⟨c 0, c 1, c 2, a⟩

/-- Build a three-channel pixel from indexed channels. -/
def mkPixel3 (c : Fin 3 → Nat) : Pixel3 :=
  ⟨c 0, c 1, c 2⟩

/-- A four-channel frame as produced by `img_bridge_.fromImage(*msg, "bgra8")`:
width, height and the pixel grid in row-major order. -/
structure Frame4 where
  width : Nat
  height : Nat
  data : List Pixel4
deriving DecidableEq, Repr

/-- A three-channel frame (the blended output planes of the compositor). -/
structure Frame3 where
  width : Nat
  height : Nat
  data : List Pixel3
deriving DecidableEq, Repr

/-- Model of `cvAddWeighted(x, 0.7, y, 0.3, 0.0, dst)` on 8-bit input, as called at
image_view.cpp:130-132: the weighted sum is computed in a wide type, rounded
to nearest and saturated into 0..255.  On byte inputs the sum never goes
below 0, so only the upper clamp is modelled. -/
def cvAddWeighted70_30 (x y : Nat) : Nat :=
  min 255 ((7 * x + 3 * y + 5) / 10)

/-- Per-pixel compositing into a three-channel pixel: each color channel is
blended with the alpha channel (image_view.cpp:129-133). -/
def compPix (p : Pixel4) : Pixel3 :=
  ⟨cvAddWeighted70_30 p.b p.a, cvAddWeighted70_30 p.g p.a,
    cvAddWeighted70_30 p.r p.a⟩

/-- Per-pixel compositing written back into the four-channel pixel:
`cvMerge(b, g, r, NULL, ipl_image)` replaces channels 0-2 and leaves the
fourth (alpha) channel of the destination unchanged (image_view.cpp:135). -/
def compPix4 (p : Pixel4) : Pixel4 :=
  ⟨cvAddWeighted70_30 p.b p.a, cvAddWeighted70_30 p.g p.a,
    cvAddWeighted70_30 p.r p.a, p.a⟩

/-- The compositor: the three blended color planes of a four-channel frame
(the split / addWeighted part of image_view.cpp:124-133). -/
def composite (f : Frame4) : Frame3 :=
  ⟨f.width, f.height, f.data.map compPix⟩

/-- The four-channel buffer after the in-place merge of the blended planes
(image_view.cpp:124-135): colors blended, alpha channel kept. -/
def compositeInPlace (f : Frame4) : Frame4 :=
  ⟨f.width, f.height, f.data.map compPix4⟩

/-- An incoming `sensor_msgs::Image`: an encoding tag and opaque payload. -/
structure Msg where
  encoding : String
  payload : List Nat
deriving DecidableEq, Repr

/-- Does the pattern match at the head of `s`? -/
def matchesAt (pat s : List Char) : Bool :=
  match pat, s with
  | [], _ => true
  | _ :: _, [] => false
  | p :: ps, c :: cs => p == c && matchesAt ps cs

/-- Substring test, modelling `std::string::find(pat) != npos`. -/
def hasSubstr (s pat : List Char) : Bool :=
  match s with
  | [] => pat.isEmpty
  | c :: rest => matchesAt pat (c :: rest) || hasSubstr rest pat

/-- Test `msg->encoding.find("bayer") != std::string::npos` (image_view.cpp:117). -/
def containsBayer (e : String) : Bool :=
  hasSubstr e.toList ("bayer".toList)

/-- The Bayer tag rewrite applied to the shared message object before the
conversion attempt (image_view.cpp:117-118): any encoding containing
"bayer" is replaced by "mono8"; `last_msg_` aliases the same object, so the
stored message carries the rewritten tag. -/
def normalizeMsg (m : Msg) : Msg :=
  if containsBayer m.encoding then { m with encoding := "mono8" } else m

/-- Rendering of `boost::format("frame%04i.jpg") % count`: the counter rendered in
decimal, zero-padded to width 4, spliced into the default template. -/
def pad4 (s : String) : String :=
  String.mk (List.replicate (4 - s.length) '0') ++ s

/-- Filename for a given counter value under the default template. -/
def renderFilename (n : Nat) : String :=
  "frame" ++ pad4 (Nat.repr n) ++ ".jpg"

/-- Observable side effects of one callback invocation. -/
inductive Act where
  | save (name : String) (img : Frame4)
  | display (img : Frame4)
  | logInfo (s : String)
  | logWarn (s : String)
  | logError (s : String)
deriving DecidableEq, Repr

/-- The mutable state of the `ImageView` object: `last_msg_`, the converted
image held by `img_bridge_`, and `count_`. -/
structure ViewState where
  lastMsg : Option Msg
  bridge : Option Frame4
  count : Nat
deriving DecidableEq, Repr

/-- Constructor state: no message yet, empty bridge, `count_(0)`. -/
def initState : ViewState :=
  ⟨none, none, 0⟩

/-- The `CV_EVENT_LBUTTONDOWN` event code. -/
def cvEventLButtonDown : Nat := 1

/-- Model of `ImageView::image_cb` (image_view.cpp:108-145), parameterized by the
external codec `convert` (`CvBridge::fromImage` to "bgra8", which on failure
returns false and leaves the bridge's stored image as it was).  The message
pointer is stored, the Bayer tag is normalized on the shared object, then
conversion is attempted; on success the converted buffer is composited in
place and displayed, on failure an error is logged and the frame skipped. -/
def image_cb (convert : Msg → Option Frame4) (s : ViewState) (msg : Msg) :
    ViewState × List Act :=
  let msg' := normalizeMsg msg
  match convert msg' with
  | some img =>
      let comp := compositeInPlace img
      ({ s with lastMsg := some msg', bridge := some comp },
        [(Act.logInfo ("received image with 4 channels")), (Act.display comp)])
  | none =>
      ({ s with lastMsg := some msg' },
        [(Act.logError ("Unable to convert " ++ msg'.encoding ++ " image to bgr8"))])

/-- Model of `ImageView::mouse_cb` (image_view.cpp:147-164): non-left-button events
are ignored; otherwise the bridge's image, when present, is saved under the
current counter's filename and the counter incremented; with no data only a
warning is logged. -/
def mouse_cb (s : ViewState) (event x y flags : Nat) : ViewState × List Act :=
  if event ≠ cvEventLButtonDown then (s, [])
  else
    match s.bridge with
    | some img =>
        ({ s with count := s.count + 1 },
          [(Act.save (renderFilename s.count) img),
            (Act.logInfo ("Saved image " ++ renderFilename s.count))])
    | none => (s, [(Act.logWarn ("no data"))])

/-- One external event delivered to the node. -/
inductive Event where
  | frame (msg : Msg)
  | click (event x y flags : Nat)
deriving DecidableEq, Repr

/-- Dispatch one event to its callback. -/
def step (convert : Msg → Option Frame4) (s : ViewState) : Event → ViewState × List Act
  | Event.frame m => image_cb convert s m
  | Event.click ev x y fl => mouse_cb s ev x y fl

/-- Process a list of events, collecting all observable actions. -/
def run (convert : Msg → Option Frame4) (s : ViewState) :
    List Event → ViewState × List Act
  | [] => (s, [])
  | e :: es =>
      let p := step convert s e
      let q := run convert p.1 es
      (q.1, p.2 ++ q.2)

/-- Filenames of the files written in a list of actions. -/
def savedNames (acts : List Act) : List String :=
  acts.filterMap fun a =>
    match a with
    | Act.save n _ => some n
    | _ => none

/-! ## Spec-side compositor (for the refinement claim)

`spec_blend` follows the specification's words: `output = α·input_channel +
(1−α)·mask` with `α = 0.7`, computed in a wider (here: exact rational) type,
rounded to nearest and saturated back into the 8-bit range. -/

/-- Modelled from the spec: the per-channel blend `α·c + (1−α)·m` with
`α = 0.7`, rounded to nearest and clamped into 0..255. -/
def spec_blend (c m : Nat) : Nat :=
  (min 255 (round ((0.7 : ℚ) * c + (1 - 0.7) * m))).toNat

/-- Modelled from the spec: the compositor applied pixelwise and
channelwise, producing a three-channel frame of the same dimensions. -/
def specComposite (f : Frame4) : Frame3 :=
  ⟨f.width, f.height, f.data.map fun p => mkPixel3 fun ch => spec_blend (chan p ch) p.a⟩

/-- Reslot the three color channels of a four-channel pixel by a permutation:
new slot `i` holds what slot `σ i` held; the alpha channel is untouched. -/
def permPixel4 (σ : Equiv.Perm (Fin 3)) (p : Pixel4) : Pixel4 :=
  mkPixel4 (fun i => chan p (σ i)) p.a

/-- Reslot the channels of a three-channel pixel by a permutation. -/
def permPixel3 (σ : Equiv.Perm (Fin 3)) (q : Pixel3) : Pixel3 :=
  mkPixel3 (fun i => chan3 q (σ i))

/-- Reslot the color channels of every pixel of a four-channel frame. -/
def permFrame4 (σ : Equiv.Perm (Fin 3)) (f : Frame4) : Frame4 :=
  ⟨f.width, f.height, f.data.map (permPixel4 σ)⟩

/-- Reslot the channels of every pixel of a three-channel frame. -/
def permFrame3 (σ : Equiv.Perm (Fin 3)) (f : Frame3) : Frame3 :=
  ⟨f.width, f.height, f.data.map (permPixel3 σ)⟩

/-- A one-pixel test frame used to instantiate the theorems. -/
def testFrame : Frame4 :=
  ⟨1, 1, [⟨255, 0, 100, 40⟩]⟩

/-- A test codec: converts exactly the messages tagged "bgra8". -/
def convTest : Msg → Option Frame4 :=
  fun m => if m.encoding = "bgra8" then some testFrame else none

/-- A test event trace: a click before any frame, one convertible frame, a
click that saves, an ignored non-left click, and a second saving click. -/
def esTest : List Event :=
  [Event.click 1 0 0 0, Event.frame ⟨"bgra8", []⟩, Event.click 1 2 3 0,
    Event.click 0 4 4 0, Event.click 1 0 0 0]

/-! ## Helper lemmas -/

theorem round_natCast_div_ten (n : Nat) : round ((n : ℚ) / 10) = ((n + 5) / 10 : Nat) := by
  rw [round_eq]
  have h : (n : ℚ) / 10 + 1 / 2 = (((n + 5 : Nat) : ℤ) : ℚ) / ((10 : Nat) : ℚ) := by
    push_cast
    ring
  rw [h, Rat.floor_intCast_div_natCast]
  omega

theorem cvAddWeighted70_30_eq_spec (x y : Nat) :
    cvAddWeighted70_30 x y = spec_blend x y := by
  unfold cvAddWeighted70_30 spec_blend
  have h : (0.7 : ℚ) * x + (1 - 0.7) * y = ((7 * x + 3 * y : Nat) : ℚ) / 10 := by
    push_cast
    ring
  rw [h, round_natCast_div_ten]
  omega

theorem chan_mkPixel4 (c : Fin 3 → Nat) (a : Nat) (i : Fin 3) :
    chan (mkPixel4 c a) i = c i := by
  fin_cases i <;> simp [chan, mkPixel4]

theorem chan3_mkPixel3 (c : Fin 3 → Nat) (i : Fin 3) :
    chan3 (mkPixel3 c) i = c i := by
  fin_cases i <;> simp [chan3, mkPixel3]

theorem mkPixel3_chan3 (p : Pixel3) : mkPixel3 (chan3 p) = p := by
  simp [mkPixel3, chan3]

theorem chan3_compPix (p : Pixel4) (i : Fin 3) :
    chan3 (compPix p) i = cvAddWeighted70_30 (chan p i) p.a := by
  fin_cases i <;> simp [chan3, chan, compPix]

theorem mkPixel4_a (c : Fin 3 → Nat) (a : Nat) : (mkPixel4 c a).a = a := rfl

theorem compPix4_a (p : Pixel4) : (compPix4 p).a = p.a := rfl

theorem chan_compPix4 (p : Pixel4) (i : Fin 3) :
    chan (compPix4 p) i = cvAddWeighted70_30 (chan p i) p.a := by
  fin_cases i <;> simp [chan, compPix4]

theorem compPix_eq_specPix (p : Pixel4) :
    compPix p = mkPixel3 fun ch => spec_blend (chan p ch) p.a := by
  rw [← mkPixel3_chan3 (compPix p)]
  congr 1
  funext i
  rw [chan3_compPix, cvAddWeighted70_30_eq_spec]

theorem permPixel_comp (σ : Equiv.Perm (Fin 3)) (p : Pixel4) :
    permPixel3 σ.symm (compPix (permPixel4 σ p)) = compPix p := by
  unfold permPixel3 permPixel4
  rw [← mkPixel3_chan3 (compPix p)]
  congr 1
  funext i
  rw [chan3_compPix, chan3_compPix, chan_mkPixel4, mkPixel4_a, Equiv.apply_symm_apply]

theorem run_append (convert : Msg → Option Frame4) (s : ViewState)
    (es₁ es₂ : List Event) :
    run convert s (es₁ ++ es₂) =
      ((run convert (run convert s es₁).1 es₂).1,
        (run convert s es₁).2 ++ (run convert (run convert s es₁).1 es₂).2) := by
  induction es₁ generalizing s with
  | nil => simp [run]
  | cons e es ih => simp [run, ih, List.append_assoc]

theorem step_count_saves (convert : Msg → Option Frame4) (s : ViewState) (e : Event) :
    (step convert s e).1.count = s.count + (savedNames (step convert s e).2).length ∧
    savedNames (step convert s e).2 =
      (List.range' s.count (savedNames (step convert s e).2).length).map renderFilename := by
  cases e with
  | frame m =>
      unfold step image_cb
      rcases h : convert (normalizeMsg m) with _ | img <;> simp [h, savedNames]
  | click ev x y fl =>
      unfold step mouse_cb
      by_cases hev : ev ≠ cvEventLButtonDown
      · simp [hev, savedNames]
      · cases hb : s.bridge <;> simp [hev, hb, savedNames, List.range']

theorem run_count_saves (convert : Msg → Option Frame4) (s : ViewState)
    (es : List Event) :
    (run convert s es).1.count = s.count + (savedNames (run convert s es).2).length ∧
    savedNames (run convert s es).2 =
      (List.range' s.count (savedNames (run convert s es).2).length).map renderFilename := by
  induction es generalizing s with
  | nil => simp [run, savedNames]
  | cons e es ih =>
      obtain ⟨h1, h2⟩ := step_count_saves convert s e
      obtain ⟨h3, h4⟩ := ih (step convert s e).1
      have hsplit : savedNames (run convert s (e :: es)).2 =
          savedNames (step convert s e).2 ++ savedNames (run convert (step convert s e).1 es).2 := by
        simp [run, savedNames, List.filterMap_append]
      have hstate : (run convert s (e :: es)).1 = (run convert (step convert s e).1 es).1 := by
        simp [run]
      refine ⟨?_, ?_⟩
      · rw [hstate, hsplit, h3, h1, List.length_append]
        ring
      · rw [hsplit, h2, h4, List.length_append, ← List.map_append, h1,
          List.range'_append_1, Nat.add_comm]
        simp [List.length_map, List.length_range']

theorem image_cb_fail (convert : Msg → Option Frame4) (s : ViewState) (msg : Msg)
    (h : convert (normalizeMsg msg) = none) :
    image_cb convert s msg =
      ({ s with lastMsg := some (normalizeMsg msg) },
        [(Act.logError ("Unable to convert " ++ (normalizeMsg msg).encoding ++ " image to bgr8"))]) := by
  unfold image_cb
  simp only [h]

theorem image_cb_success (convert : Msg → Option Frame4) (s : ViewState) (msg : Msg)
    (img : Frame4) (h : convert (normalizeMsg msg) = some img) :
    image_cb convert s msg =
      ({ s with lastMsg := some (normalizeMsg msg), bridge := some (compositeInPlace img) },
        [(Act.logInfo ("received image with 4 channels")),
          (Act.display (compositeInPlace img))]) := by
  unfold image_cb
  simp only [h]

theorem run_frames_fail (convert : Msg → Option Frame4) (s : ViewState)
    (ms : List Msg) (hfail : ∀ m ∈ ms, convert (normalizeMsg m) = none) :
    (run convert s (ms.map Event.frame)).1.bridge = s.bridge ∧
    (run convert s (ms.map Event.frame)).1.count = s.count := by
  induction ms generalizing s with
  | nil => simp [run]
  | cons m ms ih =>
      have hm : convert (normalizeMsg m) = none := hfail m (by simp)
      have hrest : ∀ m' ∈ ms, convert (normalizeMsg m') = none := by
        intro m' hm'
        exact hfail m' (by simp [hm'])
      simp only [List.map_cons, run, step, image_cb_fail convert s m hm]
      exact ih _ hrest

/-! ## Claims -/

/-- C1: for every received four-channel frame, every pixel and each of the
three color channels independently, the compositor produces
`output = 0.7 * input_channel + 0.3 * mask`, computed in a wider exact type,
rounded to nearest and saturated back into the 8-bit range: `composite`
agrees with the compositor transcribed from the specification's formula. -/
theorem compositor_matches_spec_formula (f : Frame4) :
    composite f = specComposite f := by
  unfold composite specComposite
  congr 1
  apply List.map_congr_left
  intro p _
  exact compPix_eq_specPix p

/-- C5: for every four-channel input frame the compositor's output is a
three-channel frame (`Frame3`) of the same width and height, with one output
pixel per input pixel. -/
theorem compositor_preserves_dims (f : Frame4) :
    (composite f).width = f.width ∧ (composite f).height = f.height ∧
    (composite f).data.length = f.data.length := by
  simp [composite]

/-- C7: for every pixel with byte-valued channel and mask, the blended
output stays within 0..255 and equals the unclamped rounded weighted sum, so
the arithmetic neither wraps nor underflows (the extreme cases 255/0 and
0/255 are instantiated in the witness). -/
theorem blend_saturation_safe (c m : Nat) (hc : c ≤ 255) (hm : m ≤ 255) :
    cvAddWeighted70_30 c m ≤ 255 ∧
    cvAddWeighted70_30 c m = (7 * c + 3 * m + 5) / 10 := by
  unfold cvAddWeighted70_30
  omega

/-- Witness for C7 at the two extreme corners. -/
theorem blend_saturation_safe_witness :
    (cvAddWeighted70_30 255 0 = 179 ∧ cvAddWeighted70_30 255 0 ≤ 255) ∧
    (cvAddWeighted70_30 0 255 = 77 ∧ cvAddWeighted70_30 0 255 ≤ 255) :=
  ⟨⟨by decide, (blend_saturation_safe 255 0 (by decide) (by decide)).1⟩,
    ⟨by decide, (blend_saturation_safe 0 255 (by decide) (by decide)).1⟩⟩

/-- C8: permuting which of the three color slots holds which data,
compositing, and applying the inverse permutation to the output yields the
same result as compositing the original frame. -/
theorem compositor_channel_equivariant (σ : Equiv.Perm (Fin 3)) (f : Frame4) :
    permFrame3 σ.symm (composite (permFrame4 σ f)) = composite f := by
  unfold permFrame3 permFrame4 composite
  simp only [List.map_map]
  congr 1
  apply List.map_congr_left
  intro p _
  simp only [Function.comp_apply]
  exact permPixel_comp σ p

/-- C2 counterexample: the claim that no stored Frame mutation occurs on the
conversion-failure path is false — `last_msg_ = msg` runs before the
conversion attempt (image_view.cpp:112), so a frame whose conversion fails
still replaces the stored message reference. -/
theorem image_cb_fail_mutates_stored_msg :
    (image_cb (fun _ => none) initState ⟨"weird", []⟩).1.lastMsg ≠
      initState.lastMsg := by
  decide

/-- C2 amended: on conversion failure the frame is dropped with only an
error logged — nothing is displayed or saved, the converted-frame slot read
by the save handler (`img_bridge_`) and the counter are unchanged — but the
raw last-message reference is updated to the (Bayer-normalized) incoming
message, because it is stored before the conversion attempt. -/
theorem image_cb_fail_drops_frame (convert : Msg → Option Frame4)
    (s : ViewState) (msg : Msg) (h : convert (normalizeMsg msg) = none) :
    (image_cb convert s msg).1.bridge = s.bridge ∧
    (image_cb convert s msg).1.count = s.count ∧
    (image_cb convert s msg).1.lastMsg = some (normalizeMsg msg) ∧
    (image_cb convert s msg).2 =
      [(Act.logError ("Unable to convert " ++ (normalizeMsg msg).encoding ++ " image to bgr8"))] := by
  rw [image_cb_fail convert s msg h]
  exact ⟨rfl, rfl, rfl, rfl⟩

/-- Witness for the amended C2 on a concrete failing frame. -/
theorem image_cb_fail_drops_frame_witness :
    (image_cb (fun _ => none) initState ⟨"weird", []⟩).1.bridge = initState.bridge ∧
    (image_cb (fun _ => none) initState ⟨"weird", []⟩).1.count = initState.count ∧
    (image_cb (fun _ => none) initState ⟨"weird", []⟩).1.lastMsg =
      some (normalizeMsg ⟨"weird", []⟩) ∧
    (image_cb (fun _ => none) initState ⟨"weird", []⟩).2 =
      [(Act.logError ("Unable to convert " ++ (normalizeMsg ⟨"weird", []⟩).encoding ++ " image to bgr8"))] :=
  image_cb_fail_drops_frame (fun _ => none) initState ⟨"weird", []⟩ rfl

/-- C4: a left-button click handled while the bridge holds no converted
frame writes no file, logs only the "no data" warning and leaves the whole
state — in particular the counter — unchanged. -/
theorem click_no_frame_writes_nothing (s : ViewState) (x y flags : Nat)
    (h : s.bridge = none) :
    mouse_cb s cvEventLButtonDown x y flags = (s, [(Act.logWarn ("no data"))]) := by
  unfold mouse_cb
  simp [h, cvEventLButtonDown]

/-- Witness for C4 from the initial state (no frame ever converted). -/
theorem click_no_frame_writes_nothing_witness :
    mouse_cb initState cvEventLButtonDown 5 7 0 =
      (initState, [(Act.logWarn ("no data"))]) :=
  click_no_frame_writes_nothing initState 5 7 0 rfl

/-- C6: an incoming frame whose encoding tag contains the Bayer marker has
its tag rewritten to the generic mono tag "mono8" before the conversion
attempt: the normalized tag is "mono8", and the whole frame callback
behaves exactly as on the retagged message. -/
theorem bayer_tag_normalized (convert : Msg → Option Frame4) (s : ViewState)
    (m : Msg) (h : containsBayer m.encoding = true) :
    (normalizeMsg m).encoding = "mono8" ∧
    image_cb convert s m = image_cb convert s { m with encoding := "mono8" } := by
  have h1 : normalizeMsg m = { m with encoding := "mono8" } := by
    simp [normalizeMsg, h]
  have h2 : normalizeMsg { m with encoding := "mono8" } = { m with encoding := "mono8" } := by
    have : containsBayer ("mono8") = false := by decide
    simp [normalizeMsg, this]
  constructor
  · rw [h1]
  · unfold image_cb
    rw [h1, h2]

/-- Witness for C6 on a concrete Bayer-tagged message. -/
theorem bayer_tag_normalized_witness :
    (normalizeMsg ⟨"bayer_rggb8", []⟩).encoding = "mono8" ∧
    image_cb (fun _ => none) initState ⟨"bayer_rggb8", []⟩ =
      image_cb (fun _ => none) initState ⟨"mono8", []⟩ :=
  bayer_tag_normalized (fun _ => none) initState ⟨"bayer_rggb8", []⟩ (by decide)

/-- C9: on a successful conversion the callback stores the four-channel
buffer composited in place — channels 0-2 replaced by the blended values,
the fourth (mask) channel unchanged — and a subsequent left click saves
exactly this composited buffer, not the raw received frame. -/
theorem composited_buffer_stored_and_saved (convert : Msg → Option Frame4)
    (s : ViewState) (msg : Msg) (img : Frame4) (x y flags : Nat)
    (h : convert (normalizeMsg msg) = some img) :
    (image_cb convert s msg).1.bridge = some (compositeInPlace img) ∧
    (compositeInPlace img).data = img.data.map compPix4 ∧
    (∀ p : Pixel4, (compPix4 p).a = p.a ∧
      ∀ i : Fin 3, chan (compPix4 p) i = cvAddWeighted70_30 (chan p i) p.a) ∧
    mouse_cb (image_cb convert s msg).1 cvEventLButtonDown x y flags =
      ({ (image_cb convert s msg).1 with count := s.count + 1 },
        [(Act.save (renderFilename s.count) (compositeInPlace img)),
          (Act.logInfo ("Saved image " ++ renderFilename s.count))]) := by
  rw [image_cb_success convert s msg img h]
  refine ⟨rfl, rfl, fun p => ⟨rfl, chan_compPix4 p⟩, ?_⟩
  unfold mouse_cb
  simp [cvEventLButtonDown]

/-- Witness for C9 on a concrete convertible frame. -/
theorem composited_buffer_stored_and_saved_witness :
    (image_cb convTest initState ⟨"bgra8", []⟩).1.bridge =
      some (compositeInPlace testFrame) ∧
    (compositeInPlace testFrame).data = testFrame.data.map compPix4 ∧
    (∀ p : Pixel4, (compPix4 p).a = p.a ∧
      ∀ i : Fin 3, chan (compPix4 p) i = cvAddWeighted70_30 (chan p i) p.a) ∧
    mouse_cb (image_cb convTest initState ⟨"bgra8", []⟩).1 cvEventLButtonDown 2 3 0 =
      ({ (image_cb convTest initState ⟨"bgra8", []⟩).1 with count := initState.count + 1 },
        [(Act.save (renderFilename initState.count) (compositeInPlace testFrame)),
          (Act.logInfo ("Saved image " ++ renderFilename initState.count))]) :=
  composited_buffer_stored_and_saved convTest initState ⟨"bgra8", []⟩ testFrame 2 3 0 rfl

/-- C3: the save counter starts at 0; over any event trace it equals the
number of files written, the filenames written use counter values
0..N-1 in order with no gaps or repeats (failed save attempts write nothing
and consume no counter value), and the counter never decreases across any
prefix of the trace. -/
theorem save_counter_invariants (convert : Msg → Option Frame4) (es : List Event) :
    initState.count = 0 ∧
    (run convert initState es).1.count = (savedNames (run convert initState es).2).length ∧
    savedNames (run convert initState es).2 =
      (List.range (run convert initState es).1.count).map renderFilename ∧
    ∀ es₁ es₂, es = es₁ ++ es₂ →
      (run convert initState es₁).1.count ≤ (run convert initState es).1.count := by
  obtain ⟨h1, h2⟩ := run_count_saves convert initState es
  have hc : (run convert initState es).1.count =
      (savedNames (run convert initState es).2).length := by
    rw [h1]
    simp [initState]
  refine ⟨rfl, hc, ?_, ?_⟩
  · rw [hc, List.range_eq_range']
    exact h2
  · intro es₁ es₂ heq
    subst heq
    obtain ⟨g1, _⟩ := run_count_saves convert (run convert initState es₁).1 es₂
    have hsplit := run_append convert initState es₁ es₂
    rw [hsplit]
    show (run convert initState es₁).1.count ≤
      (run convert (run convert initState es₁).1 es₂).1.count
    rw [g1]
    exact Nat.le_add_right _ _

/-- Witness for C3 on a concrete trace with a failed attempt, two saves and
an ignored event. -/
theorem save_counter_invariants_witness :
    (run convTest initState esTest).1.count = 2 ∧
    savedNames (run convTest initState esTest).2 =
      [renderFilename 0, renderFilename 1] ∧
    (run convTest initState [Event.click 1 0 0 0]).1.count ≤
      (run convTest initState esTest).1.count := by
  have h := save_counter_invariants convTest esTest
  refine ⟨by decide, by decide,
    h.2.2.2 [Event.click 1 0 0 0]
      [Event.frame ⟨"bgra8", []⟩, Event.click 1 2 3 0, Event.click 0 4 4 0,
        Event.click 1 0 0 0] rfl⟩

/-- C10: once one conversion has succeeded, a left click arriving after any
number of subsequent conversion failures still finds the frame of the most
recent successful conversion, saves it and increments the counter rather
than reporting a no-frame condition. -/
theorem click_after_failures_still_saves (convert : Msg → Option Frame4)
    (m0 : Msg) (img : Frame4) (ms : List Msg) (x y flags : Nat)
    (h0 : convert (normalizeMsg m0) = some img)
    (hfail : ∀ m ∈ ms, convert (normalizeMsg m) = none) :
    (run convert initState (Event.frame m0 :: ms.map Event.frame)).1.bridge =
      some (compositeInPlace img) ∧
    (run convert initState (Event.frame m0 :: ms.map Event.frame)).1.count = 0 ∧
    mouse_cb (run convert initState (Event.frame m0 :: ms.map Event.frame)).1
        cvEventLButtonDown x y flags =
      ({ (run convert initState (Event.frame m0 :: ms.map Event.frame)).1 with count := 1 },
        [(Act.save (renderFilename 0) (compositeInPlace img)),
          (Act.logInfo ("Saved image " ++ renderFilename 0))]) := by
  have hrun : (run convert initState (Event.frame m0 :: ms.map Event.frame)).1 =
      (run convert (image_cb convert initState m0).1 (ms.map Event.frame)).1 := by
    simp [run, step]
  have hb0 : (image_cb convert initState m0).1.bridge = some (compositeInPlace img) := by
    rw [image_cb_success convert initState m0 img h0]
  have hc0 : (image_cb convert initState m0).1.count = 0 := by
    rw [image_cb_success convert initState m0 img h0]
    rfl
  obtain ⟨hb, hc⟩ := run_frames_fail convert (image_cb convert initState m0).1 ms hfail
  rw [hb0] at hb
  rw [hc0] at hc
  rw [hrun]
  refine ⟨hb, hc, ?_⟩
  simp [mouse_cb, cvEventLButtonDown, hb, hc]

/-- Witness for C10: one good frame, two failing frames, then a click. -/
theorem click_after_failures_still_saves_witness :
    (run convTest initState
        (Event.frame ⟨"bgra8", []⟩ ::
          [Msg.mk ("weird") [], Msg.mk ("bad") []].map Event.frame)).1.bridge =
      some (compositeInPlace testFrame) ∧
    (run convTest initState
        (Event.frame ⟨"bgra8", []⟩ ::
          [Msg.mk ("weird") [], Msg.mk ("bad") []].map Event.frame)).1.count = 0 ∧
    mouse_cb (run convTest initState
        (Event.frame ⟨"bgra8", []⟩ ::
          [Msg.mk ("weird") [], Msg.mk ("bad") []].map Event.frame)).1
        cvEventLButtonDown 1 2 0 =
      ({ (run convTest initState
            (Event.frame ⟨"bgra8", []⟩ ::
              [Msg.mk ("weird") [], Msg.mk ("bad") []].map Event.frame)).1 with count := 1 },
        [(Act.save (renderFilename 0) (compositeInPlace testFrame)),
          (Act.logInfo ("Saved image " ++ renderFilename 0))]) :=
  click_after_failures_still_saves convTest ⟨"bgra8", []⟩ testFrame
    [Msg.mk ("weird") [], Msg.mk ("bad") []] 1 2 0 (by decide) (by decide)
